import Mathlib

/-!
Shallow embedding of the two scripts of this repository and proofs about
them: `data.py`, a catalog-driven downloader of Natural Earth GeoJSON files,
and `generate_index.py`, a directory-tree scanner that renders an HTML
index.  External effects (HTTP responses, filesystem state, write success)
are passed in as explicit oracles; the run state mirrors the scripts'
mutable variables, plus a trace of the URLs handed to `requests.get`.
-/

/-- Per-file configuration dictionary from `data.py`:
`{"download": ..., "directory": ..., "save_as": ...}` with an optional
`"should_overwrite"` override. -/
structure FileConfig where
  download : Bool
  directory : String
  save_as : String
  should_overwrite : Option Bool

/-- Top-level configuration in `download_geojson_files`:
`should_overwrite = True` (the global default). -/
def should_overwrite : Bool := true

/-- Base URL for the geojson folder (`base_url` in `data.py`). -/
def base_url : String :=
  "https://github.com/nvkelso/natural-earth-vector/raw/master/geojson/"

/-- The static catalog `geojson_files` of `data.py`, in declaration order.
All 129 keys are distinct, so the Python dict preserves exactly this
association list. -/
def geojson_files : List (String × FileConfig) := [
  ("ne_10m_coastline.geojson", FileConfig.mk true "features/coastlines" "coastline_10m.geojson" none),
  ("ne_10m_minor_islands_coastline.geojson", FileConfig.mk true "features/coastlines" "coastline_island_10m.geojson" (some false)),
  ("ne_10m_land.geojson", FileConfig.mk true "features/land_ocean" "land_10m.geojson" none),
  ("ne_10m_ocean.geojson", FileConfig.mk true "features/land_ocean" "ocean_10m.geojson" none),
  ("ne_10m_land_ocean_label_points.geojson", FileConfig.mk false "features/land_ocean" "ne_10m_land_ocean_label_points.geojson" none),
  ("ne_10m_land_ocean_seams.geojson", FileConfig.mk false "features/land_ocean" "ne_10m_land_ocean_seams.geojson" none),
  ("ne_10m_land_scale_rank.geojson", FileConfig.mk false "features/land_ocean" "ne_10m_land_scale_rank.geojson" none),
  ("ne_10m_ocean_scale_rank.geojson", FileConfig.mk false "features/land_ocean" "ne_10m_ocean_scale_rank.geojson" none),
  ("ne_10m_admin_0_countries.geojson", FileConfig.mk true "features/admin/countries" "admin_0.geojson" none),
  ("ne_10m_admin_0_countries_lakes.geojson", FileConfig.mk true "features/admin/countries" "admin_0_lakes.geojson" none),
  ("ne_10m_admin_0_boundary_lines_land.geojson", FileConfig.mk true "features/admin/boundaries" "admin_0_lines.geojson" none),
  ("ne_10m_admin_1_states_provinces.geojson", FileConfig.mk false "features/admin/states_provinces" "admin_1.geojson" none),
  ("ne_10m_admin_1_states_provinces_lakes.geojson", FileConfig.mk true "features/admin/states_provinces" "admin_1_lakes.geojson" none),
  ("ne_10m_admin_1_states_provinces_lines.geojson", FileConfig.mk true "features/admin/states_provinces" "admin_1_lines.geojson" none),
  ("ne_10m_admin_1_states_provinces_scale_rank.geojson", FileConfig.mk false "features/admin/states_provinces" "admin_1.geojson" none),
  ("ne_10m_admin_2_counties.geojson", FileConfig.mk true "features/admin/counties" "admin_2.geojson" none),
  ("ne_10m_admin_2_counties_lakes.geojson", FileConfig.mk true "features/admin/counties" "admin_2_lakes.geojson" none),
  ("ne_10m_admin_2_counties_scale_rank.geojson", FileConfig.mk false "features/admin/counties" "admin_2.geojson" none),
  ("ne_10m_admin_2_counties_scale_rank_minor_islands.geojson", FileConfig.mk false "features/admin/counties" "admin_2.geojson" none),
  ("ne_10m_bathymetry_A_10000.geojson", FileConfig.mk false "features/bathymetry" "ne_10m_bathymetry_A_10000.geojson" none),
  ("ne_10m_bathymetry_B_9000.geojson", FileConfig.mk false "features/bathymetry" "ne_10m_bathymetry_B_9000.geojson" none),
  ("ne_10m_bathymetry_C_8000.geojson", FileConfig.mk false "features/bathymetry" "ne_10m_bathymetry_C_8000.geojson" none),
  ("ne_10m_bathymetry_D_7000.geojson", FileConfig.mk false "features/bathymetry" "ne_10m_bathymetry_D_7000.geojson" none),
  ("ne_10m_bathymetry_E_6000.geojson", FileConfig.mk false "features/bathymetry" "ne_10m_bathymetry_E_6000.geojson" none),
  ("ne_10m_bathymetry_F_5000.geojson", FileConfig.mk false "features/bathymetry" "ne_10m_bathymetry_F_5000.geojson" none),
  ("ne_10m_bathymetry_G_4000.geojson", FileConfig.mk false "features/bathymetry" "ne_10m_bathymetry_G_4000.geojson" none),
  ("ne_10m_bathymetry_H_3000.geojson", FileConfig.mk false "features/bathymetry" "ne_10m_bathymetry_H_3000.geojson" none),
  ("ne_10m_bathymetry_I_2000.geojson", FileConfig.mk false "features/bathymetry" "ne_10m_bathymetry_I_2000.geojson" none),
  ("ne_10m_bathymetry_J_1000.geojson", FileConfig.mk false "features/bathymetry" "ne_10m_bathymetry_J_1000.geojson" none),
  ("ne_10m_bathymetry_K_200.geojson", FileConfig.mk false "features/bathymetry" "ne_10m_bathymetry_K_200.geojson" none),
  ("ne_10m_bathymetry_L_0.geojson", FileConfig.mk false "features/bathymetry" "ne_10m_bathymetry_L_0.geojson" none),
  ("ne_10m_lakes.geojson", FileConfig.mk true "features/lakes" "ne_10m_lakes.geojson" none),
  ("ne_10m_lakes_australia.geojson", FileConfig.mk false "features/lakes" "ne_10m_lakes_australia.geojson" none),
  ("ne_10m_lakes_europe.geojson", FileConfig.mk false "features/lakes" "ne_10m_lakes_europe.geojson" none),
  ("ne_10m_lakes_historic.geojson", FileConfig.mk false "features/lakes" "ne_10m_lakes_historic.geojson" none),
  ("ne_10m_lakes_north_america.geojson", FileConfig.mk false "features/lakes" "ne_10m_lakes_north_america.geojson" none),
  ("ne_10m_lakes_pluvial.geojson", FileConfig.mk false "features/lakes" "ne_10m_lakes_pluvial.geojson" none),
  ("ne_10m_rivers_australia.geojson", FileConfig.mk false "features/rivers" "ne_10m_rivers_australia.geojson" none),
  ("ne_10m_rivers_europe.geojson", FileConfig.mk false "features/rivers" "ne_10m_rivers_europe.geojson" none),
  ("ne_10m_rivers_lake_centerlines.geojson", FileConfig.mk false "features/rivers" "ne_10m_rivers_lake_centerlines.geojson" none),
  ("ne_10m_rivers_lake_centerlines_scale_rank.geojson", FileConfig.mk false "features/rivers" "ne_10m_rivers_lake_centerlines_scale_rank.geojson" none),
  ("ne_10m_rivers_north_america.geojson", FileConfig.mk false "features/rivers" "ne_10m_rivers_north_america.geojson" none),
  ("ne_10m_populated_places.geojson", FileConfig.mk false "features/populated_places" "ne_10m_populated_places.geojson" none),
  ("ne_10m_populated_places_simple.geojson", FileConfig.mk true "features/populated_places" "ne_10m_populated_places_simple.geojson" none),
  ("ne_10m_roads.geojson", FileConfig.mk false "features/transportation" "ne_10m_roads.geojson" none),
  ("ne_10m_railroads.geojson", FileConfig.mk false "features/transportation" "ne_10m_railroads.geojson" none),
  ("ne_10m_railroads_north_america.geojson", FileConfig.mk false "features/transportation" "ne_10m_railroads_north_america.geojson" none),
  ("ne_10m_airports.geojson", FileConfig.mk true "features/transportation" "ne_10m_airports.geojson" none),
  ("ne_10m_ports.geojson", FileConfig.mk true "features/transportation" "ne_10m_ports.geojson" none),
  ("ne_10m_minor_islands.geojson", FileConfig.mk true "features/islands" "ne_10m_minor_islands.geojson" none),
  ("ne_10m_minor_islands_label_points.geojson", FileConfig.mk true "features/islands" "ne_10m_minor_islands_label_points.geojson" none),
  ("ne_10m_reefs.geojson", FileConfig.mk true "features/islands" "ne_10m_reefs.geojson" none),
  ("ne_10m_glaciated_areas.geojson", FileConfig.mk false "features/ice_features" "ne_10m_glaciated_areas.geojson" none),
  ("ne_10m_antarctic_ice_shelves_lines.geojson", FileConfig.mk false "features/ice_features" "ne_10m_antarctic_ice_shelves_lines.geojson" none),
  ("ne_10m_antarctic_ice_shelves_polys.geojson", FileConfig.mk false "features/ice_features" "ne_10m_antarctic_ice_shelves_polys.geojson" none),
  ("ne_10m_geographic_lines.geojson", FileConfig.mk false "features/geographic_reference" "ne_10m_geographic_lines.geojson" none),
  ("ne_10m_geography_marine_polys.geojson", FileConfig.mk false "features/geographic_reference" "ne_10m_geography_marine_polys.geojson" none),
  ("ne_10m_geography_regions_elevation_points.geojson", FileConfig.mk false "features/geographic_reference" "ne_10m_geography_regions_elevation_points.geojson" none),
  ("ne_10m_geography_regions_points.geojson", FileConfig.mk false "features/geographic_reference" "ne_10m_geography_regions_points.geojson" none),
  ("ne_10m_geography_regions_polys.geojson", FileConfig.mk false "features/geographic_reference" "ne_10m_geography_regions_polys.geojson" none),
  ("ne_10m_time_zones.geojson", FileConfig.mk false "features/geographic_reference" "ne_10m_time_zones.geojson" none),
  ("ne_10m_graticules_1.geojson", FileConfig.mk false "features/graticules" "ne_10m_graticules_1.geojson" none),
  ("ne_10m_graticules_5.geojson", FileConfig.mk false "features/graticules" "ne_10m_graticules_5.geojson" none),
  ("ne_10m_graticules_10.geojson", FileConfig.mk false "features/graticules" "ne_10m_graticules_10.geojson" none),
  ("ne_10m_graticules_15.geojson", FileConfig.mk false "features/graticules" "ne_10m_graticules_15.geojson" none),
  ("ne_10m_graticules_20.geojson", FileConfig.mk false "features/graticules" "ne_10m_graticules_20.geojson" none),
  ("ne_10m_graticules_30.geojson", FileConfig.mk false "features/graticules" "ne_10m_graticules_30.geojson" none),
  ("ne_10m_wgs84_bounding_box.geojson", FileConfig.mk false "features/graticules" "ne_10m_wgs84_bounding_box.geojson" none),
  ("ne_10m_parks_and_protected_lands_area.geojson", FileConfig.mk false "features/protected_areas" "ne_10m_parks_and_protected_lands_area.geojson" none),
  ("ne_10m_parks_and_protected_lands_line.geojson", FileConfig.mk false "features/protected_areas" "ne_10m_parks_and_protected_lands_line.geojson" none),
  ("ne_10m_parks_and_protected_lands_point.geojson", FileConfig.mk false "features/protected_areas" "ne_10m_parks_and_protected_lands_point.geojson" none),
  ("ne_10m_parks_and_protected_lands_scale_rank.geojson", FileConfig.mk false "features/protected_areas" "ne_10m_parks_and_protected_lands_scale_rank.geojson" none),
  ("ne_10m_urban_areas.geojson", FileConfig.mk false "features/urban_areas" "ne_10m_urban_areas.geojson" none),
  ("ne_10m_urban_areas_landscan.geojson", FileConfig.mk false "features/urban_areas" "ne_10m_urban_areas_landscan.geojson" none),
  ("ne_10m_playas.geojson", FileConfig.mk true "features/misc_physical" "ne_10m_playas.geojson" none),
  ("ne_10m_admin_0_antarctic_claim_limit_lines.geojson", FileConfig.mk false "features/admin/detailed" "ne_10m_admin_0_antarctic_claim_limit_lines.geojson" none),
  ("ne_10m_admin_0_antarctic_claims.geojson", FileConfig.mk false "features/admin/detailed" "ne_10m_admin_0_antarctic_claims.geojson" none),
  ("ne_10m_admin_0_boundary_lines_disputed_areas.geojson", FileConfig.mk false "features/admin/detailed" "ne_10m_admin_0_boundary_lines_disputed_areas.geojson" none),
  ("ne_10m_admin_0_boundary_lines_map_units.geojson", FileConfig.mk false "features/admin/detailed" "ne_10m_admin_0_boundary_lines_map_units.geojson" none),
  ("ne_10m_admin_0_boundary_lines_maritime_indicator.geojson", FileConfig.mk false "features/admin/detailed" "ne_10m_admin_0_boundary_lines_maritime_indicator.geojson" none),
  ("ne_10m_admin_0_boundary_lines_maritime_indicator_chn.geojson", FileConfig.mk false "features/admin/detailed" "ne_10m_admin_0_boundary_lines_maritime_indicator_chn.geojson" none),
  ("ne_10m_admin_0_disputed_areas.geojson", FileConfig.mk false "features/admin/detailed" "ne_10m_admin_0_disputed_areas.geojson" none),
  ("ne_10m_admin_0_disputed_areas_scale_rank_minor_islands.geojson", FileConfig.mk false "features/admin/detailed" "ne_10m_admin_0_disputed_areas_scale_rank_minor_islands.geojson" none),
  ("ne_10m_admin_0_label_points.geojson", FileConfig.mk false "features/admin/detailed" "ne_10m_admin_0_label_points.geojson" none),
  ("ne_10m_admin_0_map_subunits.geojson", FileConfig.mk false "features/admin/detailed" "ne_10m_admin_0_map_subunits.geojson" none),
  ("ne_10m_admin_0_map_units.geojson", FileConfig.mk false "features/admin/detailed" "ne_10m_admin_0_map_units.geojson" none),
  ("ne_10m_admin_0_pacific_groupings.geojson", FileConfig.mk false "features/admin/detailed" "ne_10m_admin_0_pacific_groupings.geojson" none),
  ("ne_10m_admin_0_scale_rank.geojson", FileConfig.mk false "features/admin/detailed" "ne_10m_admin_0_scale_rank.geojson" none),
  ("ne_10m_admin_0_scale_rank_minor_islands.geojson", FileConfig.mk false "features/admin/detailed" "ne_10m_admin_0_scale_rank_minor_islands.geojson" none),
  ("ne_10m_admin_0_seams.geojson", FileConfig.mk false "features/admin/detailed" "ne_10m_admin_0_seams.geojson" none),
  ("ne_10m_admin_0_sovereignty.geojson", FileConfig.mk false "features/admin/detailed" "ne_10m_admin_0_sovereignty.geojson" none),
  ("ne_10m_admin_1_label_points.geojson", FileConfig.mk false "features/admin/detailed" "ne_10m_admin_1_label_points.geojson" none),
  ("ne_10m_admin_1_label_points_details.geojson", FileConfig.mk false "features/admin/detailed" "ne_10m_admin_1_label_points_details.geojson" none),
  ("ne_10m_admin_1_seams.geojson", FileConfig.mk false "features/admin/detailed" "ne_10m_admin_1_seams.geojson" none),
  ("ne_10m_admin_2_label_points.geojson", FileConfig.mk false "features/admin/detailed" "ne_10m_admin_2_label_points.geojson" none),
  ("ne_10m_admin_2_label_points_details.geojson", FileConfig.mk false "features/admin/detailed" "ne_10m_admin_2_label_points_details.geojson" none),
  ("ne_10m_admin_0_countries_arg.geojson", FileConfig.mk false "features/admin/country_specific" "ne_10m_admin_0_countries_arg.geojson" none),
  ("ne_10m_admin_0_countries_bdg.geojson", FileConfig.mk false "features/admin/country_specific" "ne_10m_admin_0_countries_bdg.geojson" none),
  ("ne_10m_admin_0_countries_bra.geojson", FileConfig.mk false "features/admin/country_specific" "ne_10m_admin_0_countries_bra.geojson" none),
  ("ne_10m_admin_0_countries_chn.geojson", FileConfig.mk false "features/admin/country_specific" "ne_10m_admin_0_countries_chn.geojson" none),
  ("ne_10m_admin_0_countries_deu.geojson", FileConfig.mk false "features/admin/country_specific" "ne_10m_admin_0_countries_deu.geojson" none),
  ("ne_10m_admin_0_countries_egy.geojson", FileConfig.mk false "features/admin/country_specific" "ne_10m_admin_0_countries_egy.geojson" none),
  ("ne_10m_admin_0_countries_esp.geojson", FileConfig.mk false "features/admin/country_specific" "ne_10m_admin_0_countries_esp.geojson" none),
  ("ne_10m_admin_0_countries_fra.geojson", FileConfig.mk false "features/admin/country_specific" "ne_10m_admin_0_countries_fra.geojson" none),
  ("ne_10m_admin_0_countries_gbr.geojson", FileConfig.mk false "features/admin/country_specific" "ne_10m_admin_0_countries_gbr.geojson" none),
  ("ne_10m_admin_0_countries_grc.geojson", FileConfig.mk false "features/admin/country_specific" "ne_10m_admin_0_countries_grc.geojson" none),
  ("ne_10m_admin_0_countries_idn.geojson", FileConfig.mk false "features/admin/country_specific" "ne_10m_admin_0_countries_idn.geojson" none),
  ("ne_10m_admin_0_countries_ind.geojson", FileConfig.mk false "features/admin/country_specific" "ne_10m_admin_0_countries_ind.geojson" none),
  ("ne_10m_admin_0_countries_iso.geojson", FileConfig.mk false "features/admin/country_specific" "ne_10m_admin_0_countries_iso.geojson" none),
  ("ne_10m_admin_0_countries_isr.geojson", FileConfig.mk false "features/admin/country_specific" "ne_10m_admin_0_countries_isr.geojson" none),
  ("ne_10m_admin_0_countries_ita.geojson", FileConfig.mk false "features/admin/country_specific" "ne_10m_admin_0_countries_ita.geojson" none),
  ("ne_10m_admin_0_countries_jpn.geojson", FileConfig.mk false "features/admin/country_specific" "ne_10m_admin_0_countries_jpn.geojson" none),
  ("ne_10m_admin_0_countries_kor.geojson", FileConfig.mk false "features/admin/country_specific" "ne_10m_admin_0_countries_kor.geojson" none),
  ("ne_10m_admin_0_countries_mar.geojson", FileConfig.mk false "features/admin/country_specific" "ne_10m_admin_0_countries_mar.geojson" none),
  ("ne_10m_admin_0_countries_nep.geojson", FileConfig.mk false "features/admin/country_specific" "ne_10m_admin_0_countries_nep.geojson" none),
  ("ne_10m_admin_0_countries_nld.geojson", FileConfig.mk false "features/admin/country_specific" "ne_10m_admin_0_countries_nld.geojson" none),
  ("ne_10m_admin_0_countries_pak.geojson", FileConfig.mk false "features/admin/country_specific" "ne_10m_admin_0_countries_pak.geojson" none),
  ("ne_10m_admin_0_countries_pol.geojson", FileConfig.mk false "features/admin/country_specific" "ne_10m_admin_0_countries_pol.geojson" none),
  ("ne_10m_admin_0_countries_prt.geojson", FileConfig.mk false "features/admin/country_specific" "ne_10m_admin_0_countries_prt.geojson" none),
  ("ne_10m_admin_0_countries_pse.geojson", FileConfig.mk false "features/admin/country_specific" "ne_10m_admin_0_countries_pse.geojson" none),
  ("ne_10m_admin_0_countries_rus.geojson", FileConfig.mk false "features/admin/country_specific" "ne_10m_admin_0_countries_rus.geojson" none),
  ("ne_10m_admin_0_countries_sau.geojson", FileConfig.mk false "features/admin/country_specific" "ne_10m_admin_0_countries_sau.geojson" none),
  ("ne_10m_admin_0_countries_swe.geojson", FileConfig.mk false "features/admin/country_specific" "ne_10m_admin_0_countries_swe.geojson" none),
  ("ne_10m_admin_0_countries_tlc.geojson", FileConfig.mk false "features/admin/country_specific" "ne_10m_admin_0_countries_tlc.geojson" none),
  ("ne_10m_admin_0_countries_tur.geojson", FileConfig.mk false "features/admin/country_specific" "ne_10m_admin_0_countries_tur.geojson" none),
  ("ne_10m_admin_0_countries_twn.geojson", FileConfig.mk false "features/admin/country_specific" "ne_10m_admin_0_countries_twn.geojson" none),
  ("ne_10m_admin_0_countries_ukr.geojson", FileConfig.mk false "features/admin/country_specific" "ne_10m_admin_0_countries_ukr.geojson" none),
  ("ne_10m_admin_0_countries_usa.geojson", FileConfig.mk false "features/admin/country_specific" "ne_10m_admin_0_countries_usa.geojson" none),
  ("ne_10m_admin_0_countries_vnm.geojson", FileConfig.mk false "features/admin/country_specific" "ne_10m_admin_0_countries_vnm.geojson" none)]

/-- An HTTP response as seen by the script: status code and body bytes. -/
structure Response where
  status : Nat
  content : List Nat

/-- Network oracle for `requests.get`: for a URL, either a transport-level
`requests.RequestException` (`Except.error`) or a `Response`. -/
abbrev Network := String → Except Unit Response

/-- Behaviour of `response.raise_for_status()`: it raises
`requests.HTTPError` (a subclass of `RequestException`) exactly for status
codes 400-599, and returns normally for every other status. -/
def raisesForStatus (s : Nat) : Bool :=
  decide (400 ≤ s) && decide (s < 600)

/-- Filesystem state: file contents by path, and the set of existing
directories. -/
structure FS where
  files : String → Option (List Nat)
  dirs : List String

/-- Behaviour of `os.makedirs(directory, exist_ok=...)`: raises
(`Except.error`) exactly when the directory already exists and `exist_ok`
is false; otherwise succeeds, creating the directory if absent. -/
def makedirs (fs : FS) (dir : String) (exist_ok : Bool) : Except String FS :=
  if dir ∈ fs.dirs then
    if exist_ok then Except.ok fs else Except.error dir
  else Except.ok { fs with dirs := dir :: fs.dirs }

/-- Behaviour of `open(filepath, 'wb')` followed by `f.write(content)`:
replaces the content at `filepath`. -/
def writeFile (fs : FS) (path : String) (content : List Nat) : FS :=
  { fs with files := fun p => if p = path then some content else fs.files p }

/-- The downloader's run state: the script's mutable variables
`success_count`, `failed_files`, `created_dirs`, the filesystem, and a
trace of the URLs passed to `requests.get`. -/
structure RunState where
  success_count : Nat
  failed_files : List String
  created_dirs : List String
  fs : FS
  requests_made : List String

/-- Lines 210-214 of `data.py`: if the entry's directory is not in
`created_dirs`, call `os.makedirs(directory, exist_ok=True)` and add it to
`created_dirs`; an `OSError` from `makedirs` would escape the loop's
`except requests.RequestException` clause, hence the error propagation. -/
def ensureDir (st : RunState) (directory : String) : Except String RunState :=
  if directory ∈ st.created_dirs then Except.ok st
  else match makedirs st.fs directory true with
    | Except.error e => Except.error e
    | Except.ok fs' =>
      Except.ok { st with fs := fs', created_dirs := directory :: st.created_dirs }

/-- Lines 216-251 of `data.py`, after the directory step: the
skip-if-exists check (`continue`), the `requests.get` call,
`raise_for_status`, and the write of the response body.  `Except.ok`
covers normal completion, the skip, and a caught
`requests.RequestException` (transport error, or `HTTPError` from
`raise_for_status`); the caught branch only prints and appends nothing to
`failed_files`.  `Except.error` is an exception the clause does not catch:
an `OSError` while opening or writing the destination file (the `writeOk`
oracle says whether that write succeeds). -/
def entryBody (net : Network) (writeOk : String → Bool)
    (st1 : RunState) (filename : String) (config : FileConfig) :
    Except String RunState :=
  let file_should_overwrite := config.should_overwrite.getD should_overwrite
  let filepath := config.directory ++ "/" ++ config.save_as
  if (st1.fs.files filepath).isSome && !file_should_overwrite then
    Except.ok st1
  else
    let st2 := { st1 with requests_made := st1.requests_made ++ [base_url ++ filename] }
    match net (base_url ++ filename) with
    | Except.error _ => Except.ok st2
    | Except.ok response =>
      if raisesForStatus response.status then Except.ok st2
      else if writeOk filepath then
        Except.ok { st2 with
          fs := writeFile st2.fs filepath response.content,
          success_count := st2.success_count + 1 }
      else Except.error filepath

/-- One iteration of the `for` loop of `download_geojson_files` (lines
204-254 of `data.py`) on an enabled entry `(filename, config)`: the
directory step followed by the body. -/
def processEntry (net : Network) (writeOk : String → Bool)
    (st : RunState) (filename : String) (config : FileConfig) :
    Except String RunState :=
  match ensureDir st config.directory with
  | Except.error e => Except.error e
  | Except.ok st1 => entryBody net writeOk st1 filename config

/-- The downloader's main loop over the filtered catalog, in declaration
order; an uncaught exception aborts the remaining entries. -/
def downloadLoop (net : Network) (writeOk : String → Bool)
    (entries : List (String × FileConfig)) (st : RunState) :
    Except String RunState :=
  match entries with
  | [] => Except.ok st
  | e :: rest =>
    match processEntry net writeOk st e.1 e.2 with
    | Except.error ex => Except.error ex
    | Except.ok st' => downloadLoop net writeOk rest st'

/-- Line 194: `files_to_download = {k: v for k, v in geojson_files.items()
if v["download"]}`. -/
def files_to_download : List (String × FileConfig) :=
  geojson_files.filter (fun e => e.2.download)

/-- Run state at the start of `download_geojson_files`: `success_count = 0`,
`failed_files = []`, `created_dirs = set()`. -/
def initState (fs : FS) : RunState :=
  { success_count := 0, failed_files := [], created_dirs := [], fs := fs,
    requests_made := [] }

/-- The whole of `download_geojson_files()`, as a function of the network
and write oracles and the starting filesystem. -/
def download_geojson_files (net : Network) (writeOk : String → Bool)
    (fs : FS) : Except String RunState :=
  downloadLoop net writeOk files_to_download (initState fs)

/-- The `FAILED:` section of the final summary (lines 260-263 of
`data.py`): printed only when `failed_files` is non-empty. -/
def failureReport (st : RunState) : List String :=
  if st.failed_files.isEmpty then []
  else ("FAILED: " ++ toString st.failed_files.length ++ " files")
    :: st.failed_files.map (fun f => "   - " ++ f)

/-- Outcome of running `data.py` as `__main__`: the function reached its
final `sys.exit(0)`, or a `KeyboardInterrupt` was delivered, or an
exception other than a caught `RequestException` escaped. -/
inductive MainOutcome where
  | completed (st : RunState)
  | interrupted
  | failed (e : String)

/-- The `try/except` of `__main__` (lines 288-298 of `data.py`): an
externally delivered interrupt is caught as `KeyboardInterrupt`; otherwise
the run either completes or its escaped exception is caught by
`except Exception`. -/
def runMain (net : Network) (writeOk : String → Bool) (fs : FS)
    (interrupt : Bool) : MainOutcome :=
  if interrupt then MainOutcome.interrupted
  else match download_geojson_files net writeOk fs with
    | Except.ok st => MainOutcome.completed st
    | Except.error e => MainOutcome.failed e

/-- The argument of `sys.exit` on each path: 0 at lines 286 and 294, 1 at
line 298. -/
def exitCode : MainOutcome → Nat
  | MainOutcome.completed _ => 0
  | MainOutcome.interrupted => 0
  | MainOutcome.failed _ => 1

/-- The final console lines printed on each exit path. -/
def mainMessage : MainOutcome → List String
  | MainOutcome.completed _ =>
    ["=== COMPLETE ===", "All downloads finished successfully!"]
  | MainOutcome.interrupted =>
    ["Process interrupted by user", "Exiting..."]
  | MainOutcome.failed e =>
    ["Unexpected error occurred: " ++ e, "Exiting..."]

/-- Code-point comparison of character lists: Python's default string
ordering (ordinal, case-sensitive). -/
def charListLe : List Char → List Char → Bool
  | [], _ => true
  | _ :: _, [] => false
  | a :: as, b :: bs =>
    if a.toNat < b.toNat then true
    else if b.toNat < a.toNat then false
    else charListLe as bs

/-- String comparison by code point, Python's default `<=` on `str`. -/
def strLe (a b : String) : Bool := charListLe a.data b.data

/-- Configuration of `generate_index_html`: `base_github_url`. -/
def base_github_url : String := "https://dvanauken.github.io/data"

/-- Configuration of `generate_index_html`: `features_root`. -/
def features_root : String := "features"

/-- An indexed file record, `{'filename': file, 'url': full_url}`. -/
structure FileInfo where
  filename : String
  url : String

/-- Line 29 of `generate_index.py`: `rel_path.replace('\\', '/')` — every
backslash becomes a forward slash. -/
def urlNormalize (s : String) : String :=
  String.mk (s.data.map (fun c => if c = '\\' then '/' else c))

/-- Behaviour of `str.endswith(ext)`. -/
def strEndsWith (s ext : String) : Bool := ext.data.isSuffixOf s.data

/-- The flattened visit order of `os.walk(features_root)`: pairs
`(root, file)` of a directory path relative to the working directory (for
example `features/coastlines`) and a filename inside it. -/
abbrev WalkTree := List (String × String)

/-- Lines 25-35 of `generate_index.py`: collect one record per file whose
name ends in `.geojson`, with URL `base_github_url + "/" + url_path` where
`url_path` is the separator-normalized path relative to the working
directory. -/
def collectRecords (tree : WalkTree) : List FileInfo :=
  (tree.filter (fun rf => strEndsWith rf.2 ".geojson")).map (fun rf =>
    { filename := rf.2,
      url := base_github_url ++ "/" ++ urlNormalize (rf.1 ++ "/" ++ rf.2) })

/-- The ordering used by `geojson_files.sort(key=lambda x: x['filename'])`. -/
def fileInfoLe (a b : FileInfo) : Prop := strLe a.filename b.filename = true

instance : DecidableRel fileInfoLe := fun a b => by
  unfold fileInfoLe; infer_instance

/-- Line 38: `geojson_files.sort(key=lambda x: x['filename'])`.  Python's
`list.sort` is a stable ascending sort, modelled by stable insertion sort
over the code-point order on filenames. -/
def sortRecords (rs : List FileInfo) : List FileInfo :=
  List.insertionSort fileInfoLe rs

/-- Line 54 of `generate_index.py`, with URL and filename interpolated
verbatim (no HTML escaping). -/
def itemLine (f : FileInfo) : String :=
  "<li><a href=\"" ++ f.url ++ "\">" ++ f.filename ++ "</a></li>\n"

/-- The document header (lines 41-51), with the timestamp and the total
count interpolated. -/
def htmlHeader (timestamp : String) (count : Nat) : String :=
  "<html>\n<head>\n<title>Natural Earth GeoJSON Files</title>\n</head>\n<body>\n<h1>Natural Earth GeoJSON Files</h1>\n<p>Generated: "
    ++ timestamp ++ "</p>\n<p>Total files: " ++ toString count
    ++ "</p>\n<hr>\n<ul>\n"

/-- The document footer (lines 56-58). -/
def htmlFooter : String := "</ul>\n</body>\n</html>"

/-- The full rendered document: the header f-string, then the
`html += f'<li>...'` loop over the sorted records, then the footer. -/
def renderHtml (tree : WalkTree) (timestamp : String) : String :=
  let records := sortRecords (collectRecords tree)
  (records.foldl (fun acc f => acc ++ itemLine f)
    (htmlHeader timestamp records.length)) ++ htmlFooter

/-- Observable result of `generate_index_html()`: console output and the
written `index.html` content (`none` when nothing is written). -/
structure GenResult where
  console : List String
  indexFile : Option String

/-- The whole of `generate_index_html()`, as a function of whether the
`features` root exists, the walked tree, and the timestamp string
`datetime.now().strftime('%Y-%m-%d %H:%M:%S')`. -/
def generate_index_html (rootExists : Bool) (tree : WalkTree)
    (timestamp : String) : GenResult :=
  if rootExists then
    let records := sortRecords (collectRecords tree)
    { console := ["Generated index.html with " ++ toString records.length ++ " files"],
      indexFile := some (renderHtml tree timestamp) }
  else
    { console := ["ERROR: Directory \x27features\x27 not found!"],
      indexFile := none }

/-- Destination path of an entry, `os.path.join(directory, save_as)` with
the POSIX separator. -/
def destPath (cfg : FileConfig) : String := cfg.directory ++ "/" ++ cfg.save_as

/-- Whether fetching `url` raises a `RequestException`: a transport error
from `requests.get`, or an `HTTPError` from `raise_for_status`. -/
def fetchFails (net : Network) (url : String) : Bool :=
  match net url with
  | Except.error _ => true
  | Except.ok r => raisesForStatus r.status

/-- Concatenation of a list of strings, in order. -/
def joinStrings : List String → String
  | [] => ""
  | s :: l => s ++ joinStrings l

/-- A network on which every request gets an HTTP 404 response, so every
`raise_for_status` raises. -/
def net404 : Network := fun _ => Except.ok (Response.mk 404 [])

/-- A network on which every request gets an HTTP 200 response with a
one-byte body. -/
def net200 : Network := fun _ => Except.ok (Response.mk 200 [104])

/-- A network on which every request gets an HTTP 300 response: not a 2xx
status, yet not one `raise_for_status` raises for. -/
def net300 : Network := fun _ => Except.ok (Response.mk 300 [55])

/-- A network on which every `requests.get` raises a transport error. -/
def netErr : Network := fun _ => Except.error ()

/-- An empty filesystem: no files, no directories. -/
def emptyFS : FS := { files := fun _ => none, dirs := [] }

/-- A filesystem on which the directory `features/coastlines` already
exists but no files do. -/
def preDirFS : FS := { files := fun _ => none, dirs := ["features/coastlines"] }

/-- The configuration of the catalog's first enabled entry,
`ne_10m_coastline.geojson`. -/
def coastCfg : FileConfig :=
  FileConfig.mk true "features/coastlines" "coastline_10m.geojson" none

/-- The configuration of the one catalog entry with an explicit
`"should_overwrite": False` override, `ne_10m_minor_islands_coastline`. -/
def islandCfg : FileConfig :=
  FileConfig.mk true "features/coastlines" "coastline_island_10m.geojson" (some false)

/-- A filesystem on which that entry's destination file already exists. -/
def islandFS : FS :=
  { files := fun p =>
      if p = "features/coastlines/coastline_island_10m.geojson" then some [123]
      else none,
    dirs := ["features/coastlines"] }

/-- The first enabled catalog entry, as a pair. -/
def c4Entry : String × FileConfig := ("ne_10m_coastline.geojson", coastCfg)

/-- Run state after running the loop on just `c4Entry` against `preDirFS`
with every fetch failing. -/
def c4Result : RunState :=
  match downloadLoop net404 (fun _ => true) [c4Entry] (initState preDirFS) with
  | Except.ok st => st
  | Except.error _ => initState preDirFS

/-- Run state after the full downloader run on `emptyFS` with every fetch
failing with HTTP 404. -/
def c1Result : RunState :=
  match download_geojson_files net404 (fun _ => true) emptyFS with
  | Except.ok st => st
  | Except.error _ => initState emptyFS

/-- A network on which exactly the URL of `fileA.geojson` fails (transport
error) and every other request succeeds. -/
def netC5 : Network := fun u =>
  if u = base_url ++ "fileA.geojson" then Except.error ()
  else Except.ok (Response.mk 200 [7])

/-- A two-entry catalog whose first entry's fetch fails on `netC5`. -/
def c5Entries : List (String × FileConfig) :=
  [("fileA.geojson", FileConfig.mk true "dirA" "a.geojson" none),
   ("fileB.geojson", FileConfig.mk true "dirB" "b.geojson" none)]

/-- Specification of `os.makedirs(d, exist_ok=True)`: it never raises, it
is idempotent, and afterwards the directory set is the old one plus `d`. -/
theorem makedirs_exist_ok_spec (fs : FS) (d : String) :
    ∃ fs', makedirs fs d true = Except.ok fs' ∧ fs'.files = fs.files ∧
      makedirs fs' d true = Except.ok fs' ∧
      (∀ x, x ∈ fs'.dirs ↔ x = d ∨ x ∈ fs.dirs) := by
  unfold makedirs
  by_cases h : d ∈ fs.dirs
  · refine ⟨fs, by simp [h], rfl, by simp [h], ?_⟩
    intro x
    constructor
    · intro hx
      exact Or.inr hx
    · rintro (rfl | hx)
      · exact h
      · exact hx
  · refine ⟨{ fs with dirs := d :: fs.dirs }, by simp [h], rfl, by simp, ?_⟩
    intro x
    simp [List.mem_cons]

/-- The directory step of an iteration always succeeds, touches no file
contents, counters, failure list or request trace, and adds exactly the
entry's directory to `created_dirs`. -/
theorem ensureDir_spec (st : RunState) (d : String) :
    ∃ st', ensureDir st d = Except.ok st' ∧
      st'.fs.files = st.fs.files ∧
      st'.success_count = st.success_count ∧
      st'.failed_files = st.failed_files ∧
      st'.requests_made = st.requests_made ∧
      (∀ x, x ∈ st'.created_dirs ↔ x = d ∨ x ∈ st.created_dirs) := by
  unfold ensureDir
  by_cases h : d ∈ st.created_dirs
  · refine ⟨st, by simp [h], rfl, rfl, rfl, rfl, ?_⟩
    intro x
    constructor
    · intro hx
      exact Or.inr hx
    · rintro (rfl | hx)
      · exact h
      · exact hx
  · obtain ⟨fs', hmk, hfiles, _, hdirs⟩ := makedirs_exist_ok_spec st.fs d
    refine ⟨{ st with fs := fs', created_dirs := d :: st.created_dirs },
      by simp [h, hmk], hfiles, rfl, rfl, rfl, ?_⟩
    intro x
    simp [List.mem_cons]

/-- When the destination file exists and the effective overwrite flag is
false, the body takes the `continue` branch and returns the state
unchanged. -/
theorem entryBody_skip (net : Network) (writeOk : String → Bool)
    (st1 : RunState) (fn : String) (cfg : FileConfig)
    (hov : cfg.should_overwrite.getD should_overwrite = false)
    (hex : (st1.fs.files (destPath cfg)).isSome = true) :
    entryBody net writeOk st1 fn cfg = Except.ok st1 := by
  unfold entryBody
  simp only [destPath] at hex
  simp [hov, hex]

/-- When the effective overwrite flag is true the skip test is dead and
the body reduces to the fetch-then-write sequence. -/
theorem entryBody_overwrite_true (net : Network) (writeOk : String → Bool)
    (st1 : RunState) (fn : String) (cfg : FileConfig)
    (hov : cfg.should_overwrite.getD should_overwrite = true) :
    entryBody net writeOk st1 fn cfg =
      match net (base_url ++ fn) with
      | Except.error _ =>
        Except.ok { st1 with requests_made := st1.requests_made ++ [base_url ++ fn] }
      | Except.ok r =>
        if raisesForStatus r.status then
          Except.ok { st1 with requests_made := st1.requests_made ++ [base_url ++ fn] }
        else if writeOk (destPath cfg) then
          Except.ok { st1 with
            requests_made := st1.requests_made ++ [base_url ++ fn],
            fs := writeFile st1.fs (destPath cfg) r.content,
            success_count := st1.success_count + 1 }
        else Except.error (destPath cfg) := by
  unfold entryBody destPath
  simp [hov]

/-- A fetch that raises is caught: the body returns normally, independent
of the write oracle, with the filesystem, the success counter, the failure
list and `created_dirs` unchanged. -/
theorem entryBody_fetch_fail (net : Network) (writeOk writeOk' : String → Bool)
    (st1 : RunState) (fn : String) (cfg : FileConfig)
    (hfail : fetchFails net (base_url ++ fn) = true) :
    entryBody net writeOk st1 fn cfg = entryBody net writeOk' st1 fn cfg ∧
    ∃ st', entryBody net writeOk st1 fn cfg = Except.ok st' ∧
      st'.fs = st1.fs ∧
      st'.success_count = st1.success_count ∧
      st'.failed_files = st1.failed_files ∧
      st'.created_dirs = st1.created_dirs := by
  have hbody : ∀ w : String → Bool, entryBody net w st1 fn cfg =
      if ((st1.fs.files (cfg.directory ++ "/" ++ cfg.save_as)).isSome
          && !(cfg.should_overwrite.getD should_overwrite)) = true
      then Except.ok st1
      else Except.ok { st1 with requests_made := st1.requests_made ++ [base_url ++ fn] } := by
    intro w
    unfold entryBody
    unfold fetchFails at hfail
    cases hnet : net (base_url ++ fn) with
    | error e =>
      simp [hnet]
    | ok r =>
      rw [hnet] at hfail
      simp only [] at hfail
      simp [hnet, hfail]
  refine ⟨by rw [hbody writeOk, hbody writeOk'], ?_⟩
  rw [hbody writeOk]
  by_cases hskip : ((st1.fs.files (cfg.directory ++ "/" ++ cfg.save_as)).isSome
      && !(cfg.should_overwrite.getD should_overwrite)) = true
  · rw [if_pos hskip]
    exact ⟨st1, rfl, rfl, rfl, rfl, rfl⟩
  · rw [if_neg hskip]
    exact ⟨_, rfl, rfl, rfl, rfl, rfl⟩

/-- Writing one path preserves the presence of every path. -/
theorem writeFile_isSome (fs : FS) (path p : String) (c : List Nat)
    (h : (fs.files p).isSome = true) :
    ((writeFile fs path c).files p).isSome = true := by
  unfold writeFile
  by_cases hp : p = path <;> simp [hp, h]

/-- An iteration is the directory step, which always succeeds and only
extends `created_dirs`, followed by the body on the resulting state. -/
theorem processEntry_spec (net : Network) (w : String → Bool)
    (st : RunState) (fn : String) (cfg : FileConfig) :
    ∃ st1, ensureDir st cfg.directory = Except.ok st1 ∧
      processEntry net w st fn cfg = entryBody net w st1 fn cfg ∧
      st1.fs.files = st.fs.files ∧ st1.success_count = st.success_count ∧
      st1.failed_files = st.failed_files ∧ st1.requests_made = st.requests_made ∧
      (∀ x, x ∈ st1.created_dirs ↔ x = cfg.directory ∨ x ∈ st.created_dirs) := by
  obtain ⟨st1, he, h2, h3, h4, h5, h6⟩ := ensureDir_spec st cfg.directory
  refine ⟨st1, he, ?_, h2, h3, h4, h5, h6⟩
  unfold processEntry
  rw [he]

/-- No branch of the body ever changes `created_dirs` or `failed_files`. -/
theorem entryBody_preserved (net : Network) (w : String → Bool)
    (st1 : RunState) (fn : String) (cfg : FileConfig) (st' : RunState)
    (h : entryBody net w st1 fn cfg = Except.ok st') :
    st'.created_dirs = st1.created_dirs ∧ st'.failed_files = st1.failed_files := by
  unfold entryBody at h
  by_cases hskip : ((st1.fs.files (cfg.directory ++ "/" ++ cfg.save_as)).isSome
      && !(cfg.should_overwrite.getD should_overwrite)) = true
  · rw [if_pos hskip] at h
    cases h
    exact ⟨rfl, rfl⟩
  · rw [if_neg hskip] at h
    cases hnet : net (base_url ++ fn) with
    | error e =>
      rw [hnet] at h
      dsimp only at h
      cases h
      exact ⟨rfl, rfl⟩
    | ok r =>
      rw [hnet] at h
      dsimp only at h
      by_cases hrs : raisesForStatus r.status = true
      · rw [if_pos hrs] at h
        cases h
        exact ⟨rfl, rfl⟩
      · rw [if_neg hrs] at h
        by_cases hw : w (cfg.directory ++ "/" ++ cfg.save_as) = true
        · rw [if_pos hw] at h
          cases h
          exact ⟨rfl, rfl⟩
        · rw [if_neg hw] at h
          cases h

/-- A completed iteration adds exactly the entry's directory to
`created_dirs` and never touches `failed_files`. -/
theorem processEntry_created_dirs (net : Network) (w : String → Bool)
    (st : RunState) (fn : String) (cfg : FileConfig) (st' : RunState)
    (h : processEntry net w st fn cfg = Except.ok st') :
    (∀ d, d ∈ st'.created_dirs ↔ d = cfg.directory ∨ d ∈ st.created_dirs) ∧
    st'.failed_files = st.failed_files := by
  obtain ⟨st1, he, heq, _, _, hff, _, hcd⟩ := processEntry_spec net w st fn cfg
  rw [heq] at h
  obtain ⟨hcd', hff'⟩ := entryBody_preserved net w st1 fn cfg st' h
  constructor
  · intro d
    rw [hcd', hff'] at *
    exact hcd d
  · rw [hff', hff]

/-- With the effective overwrite flag true and a write oracle that always
succeeds, an iteration completes, issues exactly one request, leaves
`failed_files` alone, preserves every existing file, and either the fetch
raised and nothing else changed, or it succeeded and the destination file
now exists with the success counter bumped. -/
theorem processEntry_attempt (net : Network) (st : RunState)
    (fn : String) (cfg : FileConfig)
    (hov : cfg.should_overwrite.getD should_overwrite = true) :
    ∃ st', processEntry net (fun _ => true) st fn cfg = Except.ok st' ∧
      st'.requests_made.length = st.requests_made.length + 1 ∧
      st'.failed_files = st.failed_files ∧
      (∀ p, (st.fs.files p).isSome = true → (st'.fs.files p).isSome = true) ∧
      ((fetchFails net (base_url ++ fn) = true ∧
          st'.success_count = st.success_count) ∨
       (fetchFails net (base_url ++ fn) = false ∧
          st'.success_count = st.success_count + 1 ∧
          (st'.fs.files (destPath cfg)).isSome = true)) := by
  obtain ⟨st1, he, heq, hfiles, hsc, hff, hrm, _⟩ :=
    processEntry_spec net (fun _ => true) st fn cfg
  rw [heq, entryBody_overwrite_true net (fun _ => true) st1 fn cfg hov]
  cases hnet : net (base_url ++ fn) with
  | error e =>
    refine ⟨_, rfl, ?_, hff, ?_, Or.inl ⟨?_, hsc⟩⟩
    · simp [hrm]
    · intro p hp
      rw [hfiles]
      exact hp
    · unfold fetchFails
      rw [hnet]
  | ok r =>
    dsimp only
    by_cases hrs : raisesForStatus r.status = true
    · rw [if_pos hrs]
      refine ⟨_, rfl, ?_, hff, ?_, Or.inl ⟨?_, hsc⟩⟩
      · simp [hrm]
      · intro p hp
        rw [hfiles]
        exact hp
      · unfold fetchFails
        rw [hnet]
        exact hrs
    · rw [if_neg hrs]
      simp only [if_pos rfl]
      refine ⟨_, rfl, ?_, hff, ?_, Or.inr ⟨?_, ?_, ?_⟩⟩
      · simp [hrm]
      · intro p hp
        apply writeFile_isSome
        rw [hfiles]
        exact hp
      · unfold fetchFails
        rw [hnet]
        simpa using hrs
      · simp [hsc]
      · simp [writeFile]

/-- With a write oracle that always succeeds, an iteration never raises an
uncaught exception. -/
theorem processEntry_ok_of_writeTrue (net : Network) (st : RunState)
    (fn : String) (cfg : FileConfig) :
    ∃ st', processEntry net (fun _ => true) st fn cfg = Except.ok st' := by
  obtain ⟨st1, he, heq, _⟩ := processEntry_spec net (fun _ => true) st fn cfg
  rw [heq]
  unfold entryBody
  by_cases hskip : ((st1.fs.files (cfg.directory ++ "/" ++ cfg.save_as)).isSome
      && !(cfg.should_overwrite.getD should_overwrite)) = true
  · rw [if_pos hskip]
    exact ⟨st1, rfl⟩
  · rw [if_neg hskip]
    cases hnet : net (base_url ++ fn) with
    | error e =>
      exact ⟨_, rfl⟩
    | ok r =>
      dsimp only
      by_cases hrs : raisesForStatus r.status = true
      · rw [if_pos hrs]
        exact ⟨_, rfl⟩
      · rw [if_neg hrs]
        simp only [if_pos rfl]
        exact ⟨_, rfl⟩

/-- With a write oracle that always succeeds, the loop always completes,
whatever the network returns: fetch errors never abort the run. -/
theorem downloadLoop_ok_of_writeTrue (net : Network) :
    ∀ (entries : List (String × FileConfig)) (st : RunState),
      ∃ st', downloadLoop net (fun _ => true) entries st = Except.ok st' := by
  intro entries
  induction entries with
  | nil =>
    intro st
    exact ⟨st, rfl⟩
  | cons e rest ih =>
    intro st
    obtain ⟨st1, h1⟩ := processEntry_ok_of_writeTrue net st e.1 e.2
    obtain ⟨st', h2⟩ := ih st1
    refine ⟨st', ?_⟩
    unfold downloadLoop
    rw [h1]
    exact h2

/-- A completed loop's `created_dirs` is exactly the directories of the
processed entries plus whatever was there at the start. -/
theorem downloadLoop_created_dirs (net : Network) (w : String → Bool) :
    ∀ (entries : List (String × FileConfig)) (st st' : RunState),
      downloadLoop net w entries st = Except.ok st' →
      ∀ d, d ∈ st'.created_dirs ↔
        d ∈ entries.map (fun e => e.2.directory) ∨ d ∈ st.created_dirs := by
  intro entries
  induction entries with
  | nil =>
    intro st st' h d
    unfold downloadLoop at h
    cases h
    simp
  | cons e rest ih =>
    intro st st' h d
    unfold downloadLoop at h
    cases hpe : processEntry net w st e.1 e.2 with
    | error ex =>
      rw [hpe] at h
      cases h
    | ok st1 =>
      rw [hpe] at h
      dsimp only at h
      have hcd := (processEntry_created_dirs net w st e.1 e.2 st1 hpe).1
      have hih := ih st1 st' h d
      rw [hih, hcd d]
      simp only [List.map_cons, List.mem_cons]
      tauto

/-- A completed loop never changes `failed_files`: no branch of the code
ever appends to it. -/
theorem downloadLoop_failed_files (net : Network) (w : String → Bool) :
    ∀ (entries : List (String × FileConfig)) (st st' : RunState),
      downloadLoop net w entries st = Except.ok st' →
      st'.failed_files = st.failed_files := by
  intro entries
  induction entries with
  | nil =>
    intro st st' h
    cases h
    rfl
  | cons e rest ih =>
    intro st st' h
    unfold downloadLoop at h
    cases hpe : processEntry net w st e.1 e.2 with
    | error ex =>
      rw [hpe] at h
      cases h
    | ok st1 =>
      rw [hpe] at h
      dsimp only at h
      rw [ih st1 st' h, (processEntry_created_dirs net w st e.1 e.2 st1 hpe).2]

/-- Over entries whose effective overwrite flag is true and with writes
succeeding, the loop completes, issues one request per entry, keeps
`failed_files` unchanged, and succeeds on exactly the entries whose fetch
does not raise, leaving their destination files present. -/
theorem downloadLoop_progress (net : Network) :
    ∀ (entries : List (String × FileConfig)) (st : RunState),
      (∀ e ∈ entries, e.2.should_overwrite.getD should_overwrite = true) →
      ∃ st', downloadLoop net (fun _ => true) entries st = Except.ok st' ∧
        st'.requests_made.length = st.requests_made.length + entries.length ∧
        st'.success_count
            + entries.countP (fun e => fetchFails net (base_url ++ e.1))
          = st.success_count + entries.length ∧
        st'.failed_files = st.failed_files ∧
        (∀ p, (st.fs.files p).isSome = true → (st'.fs.files p).isSome = true) ∧
        (∀ e ∈ entries, fetchFails net (base_url ++ e.1) = false →
          (st'.fs.files (destPath e.2)).isSome = true) := by
  intro entries
  induction entries with
  | nil =>
    intro st _
    refine ⟨st, rfl, by simp, by simp, rfl, fun p hp => hp, by simp⟩
  | cons e rest ih =>
    intro st hov
    obtain ⟨st1, hpe, hreq, hff, hmono, hcase⟩ :=
      processEntry_attempt net st e.1 e.2 (hov e (List.mem_cons_self e rest))
    obtain ⟨st', hloop, hreq', hsucc', hff', hmono', hdest'⟩ :=
      ih st1 (fun x hx => hov x (List.mem_cons_of_mem e hx))
    have hloop' : downloadLoop net (fun _ => true) (e :: rest) st
        = Except.ok st' := by
      unfold downloadLoop
      rw [hpe]
      exact hloop
    refine ⟨st', hloop', ?_, ?_, ?_, ?_, ?_⟩
    · rw [hreq', hreq]
      simp only [List.length_cons]
      omega
    · rw [List.countP_cons]
      rcases hcase with ⟨hf, hs⟩ | ⟨hf, hs, _⟩
      · rw [hf]
        simp only [List.length_cons, eq_self_iff_true, if_true]
        omega
      · rw [hf]
        simp only [List.length_cons, Bool.false_eq_true, if_false]
        omega
    · rw [hff', hff]
    · intro p hp
      exact hmono' p (hmono p hp)
    · intro x hx hxf
      rcases List.mem_cons.mp hx with rfl | hxr
      · rcases hcase with ⟨hf, _⟩ | ⟨_, _, hsome⟩
        · rw [hxf] at hf
          cases hf
        · exact hmono' _ hsome
      · exact hdest' x hxr hxf

/-- Code-point comparison of character lists is total. -/
theorem charListLe_total : ∀ xs ys : List Char,
    charListLe xs ys = true ∨ charListLe ys xs = true
  | [], _ => Or.inl rfl
  | _ :: _, [] => Or.inr rfl
  | a :: as, b :: bs => by
    rcases Nat.lt_trichotomy a.toNat b.toNat with h | h | h
    · left
      simp [charListLe, h]
    · have h' : ¬ a.toNat < b.toNat := by omega
      have h'' : ¬ b.toNat < a.toNat := by omega
      rcases charListLe_total as bs with ih | ih
      · left
        simp [charListLe, h', h'', ih]
      · right
        simp [charListLe, h', h'', ih]
    · right
      simp [charListLe, h]

/-- Code-point comparison of character lists is transitive. -/
theorem charListLe_trans : ∀ xs ys zs : List Char,
    charListLe xs ys = true → charListLe ys zs = true →
    charListLe xs zs = true
  | [], _, _ => fun _ _ => rfl
  | _ :: _, [], _ => fun h _ => by cases h
  | _ :: _, _ :: _, [] => fun _ h => by cases h
  | a :: as, b :: bs, c :: cs => fun h1 h2 => by
    simp only [charListLe] at h1 h2 ⊢
    by_cases hab : a.toNat < b.toNat <;> by_cases hbc : b.toNat < c.toNat
    · have : a.toNat < c.toNat := by omega
      simp [this]
    · by_cases hcb : c.toNat < b.toNat
      · rw [if_neg hbc, if_pos hcb] at h2
        cases h2
      · have hbc' : b.toNat = c.toNat := by omega
        have : a.toNat < c.toNat := by omega
        simp [this]
    · by_cases hba : b.toNat < a.toNat
      · rw [if_neg hab, if_pos hba] at h1
        cases h1
      · have hab' : a.toNat = b.toNat := by omega
        have : a.toNat < c.toNat := by omega
        simp [this]
    · by_cases hba : b.toNat < a.toNat
      · rw [if_neg hab, if_pos hba] at h1
        cases h1
      · by_cases hcb : c.toNat < b.toNat
        · rw [if_neg hbc, if_pos hcb] at h2
          cases h2
        · rw [if_neg hab, if_neg hba] at h1
          rw [if_neg hbc, if_neg hcb] at h2
          have hac : ¬ a.toNat < c.toNat := by omega
          have hca : ¬ c.toNat < a.toNat := by omega
          rw [if_neg hac, if_neg hca]
          exact charListLe_trans as bs cs h1 h2

/-- The `html +=` loop is the concatenation of the rendered lines. -/
theorem foldl_append_eq_joinStrings (g : FileInfo → String) :
    ∀ (l : List FileInfo) (init : String),
      l.foldl (fun acc f => acc ++ g f) init = init ++ joinStrings (l.map g)
  | [], init => by simp [joinStrings]
  | x :: xs, init => by
    simp only [List.foldl, List.map, joinStrings]
    rw [foldl_append_eq_joinStrings g xs (init ++ g x)]
    rw [String.append_assoc]

/-- The rendered document is the header, the sorted item lines in order,
and the footer. -/
theorem renderHtml_eq (tree : WalkTree) (ts : String) :
    renderHtml tree ts
      = htmlHeader ts (sortRecords (collectRecords tree)).length
        ++ joinStrings ((sortRecords (collectRecords tree)).map itemLine)
        ++ htmlFooter := by
  show (sortRecords (collectRecords tree)).foldl (fun acc f => acc ++ itemLine f)
      (htmlHeader ts (sortRecords (collectRecords tree)).length) ++ htmlFooter = _
  rw [foldl_append_eq_joinStrings]

/-- C1: the spec says a failed fetch is caught and the entry's
`source_name` is recorded in the run's failure list, which the final
summary then reports.  The code does catch the error, but the only
`failed_files.append` sits in unreachable code after the generic handler
of `__main__`, so the list is never extended: any completed loop leaves
`failed_files` exactly as it started, and on a run of the real catalog
over an empty filesystem where all 19 enabled entries' fetches fail with
HTTP 404, the loop still completes with 19 requests made, zero successes,
an empty `failed_files`, and an empty `FAILED:` summary section. -/
theorem failed_fetches_never_recorded :
    (∀ (net : Network) (w : String → Bool)
        (entries : List (String × FileConfig)) (st st' : RunState),
      downloadLoop net w entries st = Except.ok st' →
      st'.failed_files = st.failed_files) ∧
    (download_geojson_files net404 (fun _ => true) emptyFS).toOption.map
      (fun st => (st.failed_files, failureReport st, st.success_count,
        st.requests_made.length))
      = some ([], [], 0, 19) := by
  constructor
  · intro net w entries st st' h
    exact downloadLoop_failed_files net w entries st st' h
  · decide

/-- C1 witness: the general part applied to the concrete 404 run of the
real catalog. -/
theorem failed_fetches_never_recorded_witness :
    c1Result.failed_files = (initState emptyFS).failed_files :=
  failed_fetches_never_recorded.1 net404 (fun _ => true) files_to_download
    (initState emptyFS) c1Result rfl

/-- C2: the spec asks for a filesystem error during `open`/`write` to be
caught per-item like a transport error.  The loop's only handler is
`except requests.RequestException`, which an `OSError` does not match: on
a run where every fetch succeeds but the very first write fails, the
exception escapes the loop (aborting all remaining entries), reaches the
generic handler of `__main__`, and the process exits with status 1. -/
theorem write_error_aborts_run :
    download_geojson_files net200 (fun _ => false) emptyFS
      = Except.error "features/coastlines/coastline_10m.geojson" ∧
    runMain net200 (fun _ => false) emptyFS false
      = MainOutcome.failed "features/coastlines/coastline_10m.geojson" ∧
    exitCode (runMain net200 (fun _ => false) emptyFS false) = 1 :=
  ⟨rfl, rfl, rfl⟩

/-- C3: an enabled entry whose destination path already exists while its
effective overwrite flag (the entry's override if present, else the global
default) is false is skipped: the iteration returns normally with no HTTP
request issued, every file's bytes unchanged, and neither the success
counter nor the failure list touched. -/
theorem existing_file_skipped_when_overwrite_false (net : Network)
    (writeOk : String → Bool) (st : RunState) (fn : String) (cfg : FileConfig)
    (hov : cfg.should_overwrite.getD should_overwrite = false)
    (hex : (st.fs.files (destPath cfg)).isSome = true) :
    ∃ st', processEntry net writeOk st fn cfg = Except.ok st' ∧
      st'.fs.files = st.fs.files ∧
      st'.requests_made = st.requests_made ∧
      st'.success_count = st.success_count ∧
      st'.failed_files = st.failed_files := by
  obtain ⟨st1, he, heq, hfiles, hsc, hff, hrm, _⟩ :=
    processEntry_spec net writeOk st fn cfg
  rw [heq, entryBody_skip net writeOk st1 fn cfg hov (by rw [hfiles]; exact hex)]
  exact ⟨st1, rfl, hfiles, hrm, hsc, hff⟩

/-- C3 witness: the catalog's `ne_10m_minor_islands_coastline.geojson`
entry (override `False`) against a filesystem where its destination
already exists. -/
theorem existing_file_skipped_witness :
    ∃ st', processEntry netErr (fun _ => true) (initState islandFS)
        "ne_10m_minor_islands_coastline.geojson" islandCfg = Except.ok st' ∧
      st'.fs.files = (initState islandFS).fs.files ∧
      st'.requests_made = (initState islandFS).requests_made ∧
      st'.success_count = (initState islandFS).success_count ∧
      st'.failed_files = (initState islandFS).failed_files :=
  existing_file_skipped_when_overwrite_false netErr (fun _ => true)
    (initState islandFS) "ne_10m_minor_islands_coastline.geojson" islandCfg
    rfl (by decide)

/-- C4 counterexample: the claim says `created_dirs` contains exactly the
directories newly created during the run.  Running the real catalog over a
filesystem on which `features/coastlines` already exists (so nothing
creates it) still puts `features/coastlines` into the run's
`created_dirs`, because the code adds the directory before checking
whether it existed. -/
theorem created_dirs_includes_preexisting_directory :
    (download_geojson_files net404 (fun _ => true) preDirFS).toOption.map
      (fun st => st.created_dirs.contains "features/coastlines") = some true ∧
    preDirFS.dirs.contains "features/coastlines" = true := by
  constructor
  · decide
  · decide

/-- C4 amended: directory creation is idempotent — creating an existing
directory with `exist_ok=True` raises no error and changes nothing, so two
runs over the same root produce the same directory set — and a completed
run's `created_dirs` contains exactly the directories of the processed
entries (each added at its first occurrence) together with its initial
contents, whether or not those directories already existed on disk. -/
theorem makedirs_idempotent_and_created_dirs_tracks_entries :
    (∀ fs d, ∃ fs', makedirs fs d true = Except.ok fs' ∧
      makedirs fs' d true = Except.ok fs' ∧
      (∀ x, x ∈ fs'.dirs ↔ x = d ∨ x ∈ fs.dirs)) ∧
    (∀ (net : Network) (w : String → Bool)
        (entries : List (String × FileConfig)) (st st' : RunState),
      downloadLoop net w entries st = Except.ok st' →
      ∀ d, d ∈ st'.created_dirs ↔
        d ∈ entries.map (fun e => e.2.directory) ∨ d ∈ st.created_dirs) := by
  constructor
  · intro fs d
    obtain ⟨fs', h1, _, h3, h4⟩ := makedirs_exist_ok_spec fs d
    exact ⟨fs', h1, h3, h4⟩
  · intro net w entries st st' h d
    exact downloadLoop_created_dirs net w entries st st' h d

/-- C4 witness: idempotent creation of the pre-existing
`features/coastlines`, and the `created_dirs` characterization on a
one-entry run over that filesystem. -/
theorem makedirs_idempotent_witness :
    (∃ fs', makedirs preDirFS "features/coastlines" true = Except.ok fs' ∧
      makedirs fs' "features/coastlines" true = Except.ok fs' ∧
      (∀ x, x ∈ fs'.dirs ↔ x = "features/coastlines" ∨ x ∈ preDirFS.dirs)) ∧
    ("features/coastlines" ∈ c4Result.created_dirs ↔
      "features/coastlines" ∈ [c4Entry].map (fun e => e.2.directory) ∨
      "features/coastlines" ∈ (initState preDirFS).created_dirs) :=
  ⟨makedirs_idempotent_and_created_dirs_tracks_entries.1 preDirFS
      "features/coastlines",
   makedirs_idempotent_and_created_dirs_tracks_entries.2 net404 (fun _ => true)
      [c4Entry] (initState preDirFS) c4Result rfl "features/coastlines"⟩

/-- C5: over entries whose effective overwrite flag is true (so none is
skipped) and with writes succeeding, if exactly one entry's fetch fails
then the loop still completes, every one of the N entries is attempted
(one request each), exactly N-1 succeed, and every fetch-successful
entry's destination file exists afterwards. -/
theorem single_fetch_failure_does_not_stop_run (net : Network)
    (entries : List (String × FileConfig)) (st : RunState)
    (hov : ∀ e ∈ entries, e.2.should_overwrite.getD should_overwrite = true)
    (hone : entries.countP (fun e => fetchFails net (base_url ++ e.1)) = 1) :
    ∃ st', downloadLoop net (fun _ => true) entries st = Except.ok st' ∧
      st'.requests_made.length = st.requests_made.length + entries.length ∧
      st'.success_count + 1 = st.success_count + entries.length ∧
      (∀ e ∈ entries, fetchFails net (base_url ++ e.1) = false →
        (st'.fs.files (destPath e.2)).isSome = true) := by
  obtain ⟨st', h1, h2, h3, _, _, h6⟩ := downloadLoop_progress net entries st hov
  rw [hone] at h3
  exact ⟨st', h1, h2, h3, h6⟩

/-- C5 witness: a two-entry catalog on a network failing exactly the first
entry's URL. -/
theorem single_fetch_failure_witness :
    ∃ st', downloadLoop netC5 (fun _ => true) c5Entries (initState emptyFS)
        = Except.ok st' ∧
      st'.requests_made.length
        = (initState emptyFS).requests_made.length + c5Entries.length ∧
      st'.success_count + 1
        = (initState emptyFS).success_count + c5Entries.length ∧
      (∀ e ∈ c5Entries, fetchFails netC5 (base_url ++ e.1) = false →
        (st'.fs.files (destPath e.2)).isSome = true) :=
  single_fetch_failure_does_not_stop_run netC5 c5Entries (initState emptyFS)
    (by decide) (by decide)

/-- C6: with writes succeeding, a non-interrupted run always reaches the
`completed` outcome (exit 0) whatever the per-item fetch outcomes; an
interrupt always takes the distinct `interrupted` outcome, also exit 0,
with its own message; and exit status 1 occurs exactly on the `failed`
outcome, the path of an uncaught unexpected error. -/
theorem exit_codes_and_paths :
    (∀ (net : Network) (fs : FS), ∃ st,
      runMain net (fun _ => true) fs false = MainOutcome.completed st) ∧
    (∀ (net : Network) (w : String → Bool) (fs : FS),
      runMain net w fs true = MainOutcome.interrupted) ∧
    (∀ st, exitCode (MainOutcome.completed st) = 0) ∧
    exitCode MainOutcome.interrupted = 0 ∧
    (∀ e, exitCode (MainOutcome.failed e) = 1) ∧
    (∀ o, exitCode o = 1 ↔ ∃ e, o = MainOutcome.failed e) ∧
    mainMessage MainOutcome.interrupted
      = ["Process interrupted by user", "Exiting..."] ∧
    (∀ st, mainMessage (MainOutcome.completed st)
      = ["=== COMPLETE ===", "All downloads finished successfully!"]) := by
  refine ⟨?_, ?_, fun st => rfl, rfl, fun e => rfl, ?_, rfl, fun st => rfl⟩
  · intro net fs
    obtain ⟨st', h⟩ :=
      downloadLoop_ok_of_writeTrue net files_to_download (initState fs)
    refine ⟨st', ?_⟩
    unfold runMain download_geojson_files
    rw [h]
    rfl
  · intro net w fs
    rfl
  · intro o
    cases o with
    | completed st => simp [exitCode]
    | interrupted => simp [exitCode]
    | failed e => simp [exitCode]

/-- C7: the records the index renders are exactly one per walked file
whose name ends in `.geojson` (others excluded), each carrying its
filename and the URL `base_github_url + "/" + separator-normalized
relative path`; they are sorted by filename under the case-sensitive
code-point order; the document is the header followed by one list item
per record in that order and the footer; and on the spec's example tree
`{a.geojson, B.geojson, c.txt}` the two items come out as `B.geojson`
before `a.geojson`. -/
theorem index_lists_sorted_geojson_records (tree : WalkTree) (ts : String) :
    (sortRecords (collectRecords tree)).Perm
      ((tree.filter (fun rf => strEndsWith rf.2 ".geojson")).map (fun rf =>
        FileInfo.mk rf.2
          (base_github_url ++ "/" ++ urlNormalize (rf.1 ++ "/" ++ rf.2)))) ∧
    (sortRecords (collectRecords tree)).length
      = (tree.filter (fun rf => strEndsWith rf.2 ".geojson")).length ∧
    List.Pairwise fileInfoLe (sortRecords (collectRecords tree)) ∧
    renderHtml tree ts
      = htmlHeader ts (sortRecords (collectRecords tree)).length
        ++ joinStrings ((sortRecords (collectRecords tree)).map itemLine)
        ++ htmlFooter ∧
    (sortRecords (collectRecords [("features", "a.geojson"),
        ("features", "B.geojson"), ("features", "c.txt")])).map
      (fun f => f.filename) = ["B.geojson", "a.geojson"] := by
  have hperm : (sortRecords (collectRecords tree)).Perm (collectRecords tree) :=
    List.perm_insertionSort fileInfoLe (collectRecords tree)
  haveI : IsTotal FileInfo fileInfoLe :=
    ⟨fun a b => charListLe_total a.filename.data b.filename.data⟩
  haveI : IsTrans FileInfo fileInfoLe :=
    ⟨fun a b c => charListLe_trans a.filename.data b.filename.data c.filename.data⟩
  refine ⟨hperm, ?_, ?_, renderHtml_eq tree ts, by decide⟩
  · rw [hperm.length_eq]
    simp [collectRecords]
  · exact List.sorted_insertionSort fileInfoLe (collectRecords tree)

/-- C8: when the `features` root does not exist, the generator prints an
error and returns: no output file is produced, and since the embedded
function is total, no fault escapes. -/
theorem missing_root_reports_error_and_writes_nothing
    (tree : WalkTree) (ts : String) :
    (generate_index_html false tree ts).indexFile = none ∧
    (generate_index_html false tree ts).console
      = ["ERROR: Directory \x27features\x27 not found!"] :=
  ⟨rfl, rfl⟩

set_option maxRecDepth 4000 in
/-- C9 counterexample: the claim says any non-2xx status leaves the
destination file unwritten, but `raise_for_status` raises only for
400-599.  An HTTP 300 response — a non-2xx status — passes the check and
its body is written to the destination file. -/
theorem non2xx_status_300_written :
    (processEntry net300 (fun _ => true) (initState emptyFS)
        "ne_10m_coastline.geojson" coastCfg).toOption.map
      (fun st => st.fs.files "features/coastlines/coastline_10m.geojson")
      = some (some [55]) ∧
    ¬(200 ≤ 300 ∧ 300 ≤ 299) := by
  constructor
  · decide
  · decide

/-- C9 amended: for an entry whose fetch raises — a transport error or a
4xx/5xx status, the statuses the check rejects — the iteration returns
normally without ever opening the destination file: the result does not
depend on the write oracle, every file's bytes (and absence) are exactly
preserved, and the success counter is unchanged.  A non-2xx status
outside 400-599, such as 300, instead passes the check and is written. -/
theorem failed_fetch_leaves_file_untouched (net : Network)
    (w w' : String → Bool) (st : RunState) (fn : String) (cfg : FileConfig)
    (hfail : fetchFails net (base_url ++ fn) = true) :
    processEntry net w st fn cfg = processEntry net w' st fn cfg ∧
    ∃ st', processEntry net w st fn cfg = Except.ok st' ∧
      st'.fs.files = st.fs.files ∧
      st'.success_count = st.success_count := by
  obtain ⟨st1, he, heq, hfiles, hsc, hff, hrm, _⟩ := processEntry_spec net w st fn cfg
  obtain ⟨st1', he', heq', _⟩ := processEntry_spec net w' st fn cfg
  rw [he] at he'
  cases he'
  obtain ⟨heqw, st'', hb, hfs, hsc', _, _⟩ :=
    entryBody_fetch_fail net w w' st1 fn cfg hfail
  refine ⟨by rw [heq, heq', heqw], st'', by rw [heq]; exact hb, ?_, ?_⟩
  · rw [hfs, hfiles]
  · rw [hsc', hsc]

/-- C9 witness: the first enabled entry against a network whose
`requests.get` raises, under two different write oracles. -/
theorem failed_fetch_leaves_file_untouched_witness :
    processEntry netErr (fun _ => true) (initState emptyFS)
        "ne_10m_coastline.geojson" coastCfg
      = processEntry netErr (fun _ => false) (initState emptyFS)
        "ne_10m_coastline.geojson" coastCfg ∧
    ∃ st', processEntry netErr (fun _ => true) (initState emptyFS)
        "ne_10m_coastline.geojson" coastCfg = Except.ok st' ∧
      st'.fs.files = (initState emptyFS).fs.files ∧
      st'.success_count = (initState emptyFS).success_count :=
  failed_fetch_leaves_file_untouched netErr (fun _ => true) (fun _ => false)
    (initState emptyFS) "ne_10m_coastline.geojson" coastCfg rfl

set_option maxRecDepth 100000 in
/-- C10: the generator performs no HTML escaping: the document is the
header followed, for each sorted record, by the line
`<li><a href="URL">FILENAME</a></li>` with the URL and filename
interpolated verbatim, then the footer; a filename containing the
metacharacters `<`, `&` and a double quote appears unescaped in the
rendered document. -/
theorem html_interpolates_verbatim (tree : WalkTree) (ts : String) :
    renderHtml tree ts
      = htmlHeader ts (sortRecords (collectRecords tree)).length
        ++ joinStrings ((sortRecords (collectRecords tree)).map (fun f =>
            "<li><a href=\"" ++ f.url ++ "\">" ++ f.filename ++ "</a></li>\n"))
        ++ htmlFooter ∧
    renderHtml [("features", "x<&\".geojson")] "2025-01-01 00:00:00"
      = "<html>\n<head>\n<title>Natural Earth GeoJSON Files</title>\n</head>\n<body>\n<h1>Natural Earth GeoJSON Files</h1>\n<p>Generated: 2025-01-01 00:00:00</p>\n<p>Total files: 1</p>\n<hr>\n<ul>\n<li><a href=\"https://dvanauken.github.io/data/features/x<&\".geojson\">x<&\".geojson</a></li>\n</ul>\n</body>\n</html>" := by
  constructor
  · exact renderHtml_eq tree ts
  · rfl
